import Mathlib

/-!
Verification of the passwordless-ai-ops demo (two FastAPI handlers in
src/main.py and src/main_with_secretes.py) against its design spec.

The repository wires three external calls: credential acquisition, a blob
download, and a chat-completion request. We embed the request path as pure
Lean functions. External collaborators (the blob store and the completion
service) are stubs passed in as parameters, exactly as the testable
properties of the spec describe; the environment is a partial map from
variable names to strings. Each handler run returns its HTTP result
together with an observable trace: which blob requests were issued, which
prompts were sent to the completion client, and which environment
variables were read during request handling.
-/

namespace PasswordlessAiOps

/-- A request to the blob store: container name and blob name, as issued by
get_context_from_blob. -/
structure BlobRequest where
  container : String
  blobName : String
deriving DecidableEq, Repr

/-- Errors of the Document Store Client (spec section 4.2). -/
inductive StoreError where
  | notFound
  | unauthorized
  | upstream
deriving DecidableEq, Repr

/-- Errors of the Completion Client (spec section 4.3). -/
inductive CompError where
  | unauthorized
  | rateLimited
  | upstream
deriving DecidableEq, Repr

/-- An error surfaced by the request handler to the HTTP caller: either the
document fetch or the completion call failed, and the exception propagates
unrecovered (there is no try/except in either source file). -/
inductive AppError where
  | storeError (e : StoreError)
  | compError (e : CompError)
deriving DecidableEq, Repr

/-- Stubbed external collaborators, as in spec section 8: the blob store
answers a blob request with text or a store error; the completion service
answers a prompt with generated text or a completion error. -/
structure Stubs where
  fetchDoc : BlobRequest → Except StoreError String
  complete : String → Except CompError String

/-- The process environment: a partial map from variable names to values. -/
def Env : Type := String → Option String

/-- os.getenv with a default value. -/
def getenvD (env : Env) (name dflt : String) : String :=
  (env name).getD dflt

/-- Python str.lower, mapping each character to its lowercase form (for the
ASCII range relevant here this agrees with String.toLower; it is written as
a structural map over the character list). -/
def pyLower (s : String) : String :=
  ⟨s.data.map Char.toLower⟩

/-- main.py line 20:
USE_MANAGED_IDENTITY = os.getenv("USE_MANAGED_IDENTITY", "true").lower() == "true" -/
def useManagedIdentity (env : Env) : Bool :=
  pyLower (getenvD env "USE_MANAGED_IDENTITY" "true") == "true"

/-- The prompt template string passed to ChatPromptTemplate.from_template in
both main.py and main_with_secretes.py: a triple-quoted Python literal that
begins with a newline, indents every line by four spaces, has a four-space
blank line between the context and the question, and ends with a newline
plus four spaces. -/
def promptTemplate : String :=
  "\n    Answer the question based only on the following context:\n    {context}\n    \n    Question: {question}\n    "

/-- Single-pass substitution of the context and question into
promptTemplate, as performed by the LangChain template when the chain is
invoked with \x7b"context": context, "question": question\x7d. -/
def formatPrompt (context question : String) : String :=
  "\n    Answer the question based only on the following context:\n    "
    ++ context ++ "\n    \n    Question: " ++ question ++ "\n    "

/-- The observable outcome of one handler run: the HTTP-level result (the
JSON object as an ordered list of key/value pairs, or an error), the blob
requests issued, the prompts sent to the completion client, and the
environment variables read while handling the request. -/
structure RunResult where
  result : Except AppError (List (String × String))
  fetchRequests : List BlobRequest
  completionPrompts : List String
  requestEnvReads : List String
deriving Repr

/-- main.py get_context_from_blob: chooses the storage credential from the
flag (reading STORAGE_ACCOUNT_URL in managed-identity mode and
STORAGE_CONNECTION_STRING otherwise), then fetches container "docs", blob
"knowledge.txt" and decodes it as UTF-8. Returns the environment variable
read, the blob request issued, and the fetch outcome. -/
def get_context_from_blob (useMI : Bool) (stub : Stubs) :
    String × BlobRequest × Except StoreError String :=
  let storageVar := if useMI then "STORAGE_ACCOUNT_URL" else "STORAGE_CONNECTION_STRING"
  let req : BlobRequest := ⟨"docs", "knowledge.txt"⟩
  ⟨storageVar, req, stub.fetchDoc req⟩

/-- main.py ask_langchain: initializes the completion client (reading the
deployment, endpoint and, in static-key mode, the API key from the
environment), sets the auth label, fetches the context document, formats
the prompt, invokes the chain once, and returns
\x7b"answer": answer, "engine": "LangChain + " + auth_method\x7d.
An exception at any step propagates; there is no retry and no fallback. -/
def ask_langchain (env : Env) (stub : Stubs) (question : String) : RunResult :=
  let useMI := useManagedIdentity env
  let llmEnvReads :=
    if useMI then
      ["AZURE_OPENAI_DEPLOYMENT_NAME", "AZURE_OPENAI_ENDPOINT"]
    else
      ["AZURE_OPENAI_DEPLOYMENT_NAME", "AZURE_OPENAI_ENDPOINT", "AZURE_OPENAI_API_KEY"]
  let auth_method := if useMI then "Managed Identity" else "API Key"
  let fetch := get_context_from_blob useMI stub
  let envReads := llmEnvReads ++ [fetch.1]
  match fetch.2.2 with
  | Except.error e =>
      ⟨Except.error (AppError.storeError e), [fetch.2.1], [], envReads⟩
  | Except.ok context =>
      let prompt := formatPrompt context question
      match stub.complete prompt with
      | Except.error e =>
          ⟨Except.error (AppError.compError e), [fetch.2.1], [prompt], envReads⟩
      | Except.ok answer =>
          ⟨Except.ok [("answer", answer), ("engine", "LangChain + " ++ auth_method)],
           [fetch.2.1], [prompt], envReads⟩

namespace Secretes

/-- The environment variables read once at module load by
main_with_secretes.py lines 20 to 23. -/
def startupEnvReads : List String :=
  ["STORAGE_CONNECTION_STRING", "AZURE_OPENAI_API_KEY",
   "AZURE_OPENAI_ENDPOINT", "AZURE_OPENAI_DEPLOYMENT_NAME"]

/-- The fixed warning string in the response of main_with_secretes.py. -/
def warningMsg : String :=
  "⚠️ This app uses hardcoded secrets. DO NOT USE IN PRODUCTION!"

/-- main_with_secretes.py get_context_from_blob: always uses the connection
string held in a module-level variable and fetches container "docs", blob
"knowledge.txt". No environment variable is read during the call. -/
def get_context_from_blob (stub : Stubs) : BlobRequest × Except StoreError String :=
  let req : BlobRequest := ⟨"docs", "knowledge.txt"⟩
  ⟨req, stub.fetchDoc req⟩

/-- main_with_secretes.py ask_langchain: builds the completion client from
module-level variables, fetches the context, formats the same template,
invokes the chain once, and returns a three-field object
\x7b"answer": answer, "engine": "LangChain + API Key (INSECURE!)",
"warning": warningMsg\x7d. -/
def ask_langchain (stub : Stubs) (question : String) : RunResult :=
  let fetch := get_context_from_blob stub
  match fetch.2 with
  | Except.error e =>
      ⟨Except.error (AppError.storeError e), [fetch.1], [], []⟩
  | Except.ok context =>
      let prompt := formatPrompt context question
      match stub.complete prompt with
      | Except.error e =>
          ⟨Except.error (AppError.compError e), [fetch.1], [prompt], []⟩
      | Except.ok answer =>
          ⟨Except.ok [("answer", answer),
                      ("engine", "LangChain + API Key (INSECURE!)"),
                      ("warning", warningMsg)],
           [fetch.1], [prompt], []⟩

end Secretes

/-- The template the spec states, written from the words of the spec
(section 4.1) for comparison with the one transcribed from the source:
"Answer the question based only on the following context:\n\x7bcontext\x7d\n\nQuestion: \x7bquestion\x7d". -/
def specFormatPrompt (context question : String) : String :=
  "Answer the question based only on the following context:\n"
    ++ context ++ "\n\nQuestion: " ++ question

/-- An environment with no variables set: main.py then runs in
managed-identity mode by its default. -/
def envEmpty : Env := fun _ => none

/-- The stub of spec section 8: the blob store returns "The sky is blue."
and the completion service answers "Blue." to every prompt. -/
def stubSky : Stubs :=
  ⟨fun _ => Except.ok "The sky is blue.", fun _ => Except.ok "Blue."⟩

/-- A stub whose blob store fails with NotFound; the completion service
would answer normally if it were ever reached. -/
def stubNotFound : Stubs :=
  ⟨fun _ => Except.error StoreError.notFound, fun _ => Except.ok "Blue."⟩

/-- A stub whose blob store succeeds but whose completion service fails
with Unauthorized. -/
def stubCompUnauthorized : Stubs :=
  ⟨fun _ => Except.ok "The sky is blue.", fun _ => Except.error CompError.unauthorized⟩

/-- Structural decidable equality for Except, so counterexamples can be
checked by evaluation. -/
def exceptDecEq {ε α : Type} [DecidableEq ε] [DecidableEq α] :
    (a b : Except ε α) → Decidable (a = b)
  | Except.ok x, Except.ok y =>
      if h : x = y then isTrue (by rw [h])
      else isFalse (by intro he; cases he; exact h rfl)
  | Except.ok _, Except.error _ => isFalse (by intro he; cases he)
  | Except.error _, Except.ok _ => isFalse (by intro he; cases he)
  | Except.error e, Except.error f =>
      if h : e = f then isTrue (by rw [h])
      else isFalse (by intro he; cases he; exact h rfl)

instance {ε α : Type} [DecidableEq ε] [DecidableEq α] : DecidableEq (Except ε α) :=
  exceptDecEq

/-- The keys of the JSON object of a successful result, in order. -/
def resultKeys (r : RunResult) : Except AppError (List String) :=
  r.result.map (fun fields => fields.map Prod.fst)

/-- A successful result with its engine field removed; errors unchanged.
Used to compare runs that may differ only in the engine label. -/
def dropEngine (r : RunResult) : Except AppError (List (String × String)) :=
  r.result.map (fun fields => fields.filter (fun kv => kv.1 != "engine"))

/-- C1, counterexample: with the stubbed context "The sky is blue." and the
question "What color is the sky?", the prompt the handler sends to the
completion client is not the substitution into the template the claim
states: the source template is an indented triple-quoted literal with a
leading newline, four-space indentation on every line and a trailing
newline plus indent. -/
theorem C1_counterexample :
    (ask_langchain envEmpty stubSky "What color is the sky?").completionPrompts ≠
      [specFormatPrompt "The sky is blue." "What color is the sky?"] := by
  decide

/-- C1, amended: for every configuration, every context document C
returned by the stubbed Document Store Client and every question Q, the
handler invokes the Completion Client exactly once, with the source
template (leading newline, each line indented by four spaces, a four-space
blank line, trailing newline plus indent) with C and Q substituted
verbatim. -/
theorem C1_template (env : Env) (stub : Stubs) (C Q : String)
    (hfetch : ∀ r, stub.fetchDoc r = Except.ok C) :
    (ask_langchain env stub Q).completionPrompts =
      ["\n    Answer the question based only on the following context:\n    "
        ++ C ++ "\n    \n    Question: " ++ Q ++ "\n    "] := by
  unfold ask_langchain get_context_from_blob
  simp only [hfetch]
  cases hc : stub.complete (formatPrompt C Q) <;> simp [hc, formatPrompt]

/-- C1 witness: the amended template theorem at the sky stub. -/
theorem C1_template_witness :
    (ask_langchain envEmpty stubSky "What color is the sky?").completionPrompts =
      ["\n    Answer the question based only on the following context:\n    "
        ++ "The sky is blue." ++ "\n    \n    Question: "
        ++ "What color is the sky?" ++ "\n    "] :=
  C1_template envEmpty stubSky "The sky is blue." "What color is the sky?"
    (fun _ => rfl)

/-- C2, counterexample: in managed-identity mode with the stub of the spec,
the handler does not return the engine label "Managed Identity": the source
labels the engine "LangChain + Managed Identity". -/
theorem C2_counterexample :
    (ask_langchain envEmpty stubSky "What color is the sky?").result ≠
      Except.ok [("answer", "Blue."), ("engine", "Managed Identity")] := by
  decide

/-- C2, amended: for every question, with a stubbed store returning C and a
stubbed completion returning A, the handler returns answer A and the engine
label "LangChain + Managed Identity" in managed-identity mode and
"LangChain + API Key" in static-key mode; in particular with the stub of
the spec it returns answer "Blue." and engine
"LangChain + Managed Identity". -/
theorem C2_engine (env : Env) (stub : Stubs) (Q C A : String)
    (hfetch : ∀ r, stub.fetchDoc r = Except.ok C)
    (hcomp : ∀ p, stub.complete p = Except.ok A) :
    (ask_langchain env stub Q).result =
      Except.ok [("answer", A),
        ("engine", "LangChain + "
          ++ (if useManagedIdentity env then "Managed Identity" else "API Key"))] := by
  unfold ask_langchain get_context_from_blob
  cases h : useManagedIdentity env <;> simp [hfetch, hcomp]

/-- C2 witness: the engine theorem at the sky stub in managed-identity
mode. -/
theorem C2_engine_witness :
    (ask_langchain envEmpty stubSky "What color is the sky?").result =
      Except.ok [("answer", "Blue."), ("engine", "LangChain + Managed Identity")] :=
  C2_engine envEmpty stubSky "What color is the sky?" "The sky is blue." "Blue."
    (fun _ => rfl) (fun _ => rfl)

/-- C3: if the Document Store Client fails with any error, the handler
propagates a store error to the caller and the Completion Client is never
invoked for that request, and only one fetch is attempted. -/
theorem C3_store_failure (env : Env) (stub : Stubs) (q : String) (e : StoreError)
    (hfetch : ∀ r, stub.fetchDoc r = Except.error e) :
    (ask_langchain env stub q).result = Except.error (AppError.storeError e) ∧
    (ask_langchain env stub q).completionPrompts = [] ∧
    (ask_langchain env stub q).fetchRequests.length = 1 := by
  unfold ask_langchain get_context_from_blob
  simp [hfetch]

/-- C3 witness: the store-failure theorem at a NotFound stub. -/
theorem C3_store_failure_witness :
    (ask_langchain envEmpty stubNotFound "What color is the sky?").result =
      Except.error (AppError.storeError StoreError.notFound) ∧
    (ask_langchain envEmpty stubNotFound "What color is the sky?").completionPrompts = [] ∧
    (ask_langchain envEmpty stubNotFound "What color is the sky?").fetchRequests.length = 1 :=
  C3_store_failure envEmpty stubNotFound "What color is the sky?"
    StoreError.notFound (fun _ => rfl)

/-- C4, counterexample: the static-key variant (main_with_secretes.py)
returns a third field "warning" on success, so the response is not exactly
the two-field record of the claim. -/
theorem C4_counterexample :
    resultKeys (Secretes.ask_langchain stubSky "What color is the sky?") =
      Except.ok ["answer", "engine", "warning"] ∧
    ["answer", "engine", "warning"] ≠ ["answer", "engine"] := by
  exact ⟨rfl, by decide⟩

/-- C4, amended: on success the main.py handler returns exactly the fields
answer and engine, in that order; the static-key variant returns exactly
answer, engine and a fixed warning field. -/
theorem C4_fields (env : Env) (stub : Stubs) (q C A : String)
    (hfetch : ∀ r, stub.fetchDoc r = Except.ok C)
    (hcomp : ∀ p, stub.complete p = Except.ok A) :
    resultKeys (ask_langchain env stub q) = Except.ok ["answer", "engine"] ∧
    resultKeys (Secretes.ask_langchain stub q) =
      Except.ok ["answer", "engine", "warning"] := by
  unfold resultKeys ask_langchain get_context_from_blob
    Secretes.ask_langchain Secretes.get_context_from_blob
  cases h : useManagedIdentity env <;> simp [hfetch, hcomp, Except.map]

/-- C4 witness: the fields theorem at the sky stub. -/
theorem C4_fields_witness :
    resultKeys (ask_langchain envEmpty stubSky "What color is the sky?") =
      Except.ok ["answer", "engine"] ∧
    resultKeys (Secretes.ask_langchain stubSky "What color is the sky?") =
      Except.ok ["answer", "engine", "warning"] :=
  C4_fields envEmpty stubSky "What color is the sky?" "The sky is blue." "Blue."
    (fun _ => rfl) (fun _ => rfl)

/-- C5: two runs of the main.py handler on the same question with the same
stubs but arbitrary different environments (in particular environments
differing only in USE_MANAGED_IDENTITY) agree on everything except the
engine label: the result with the engine field removed, the prompts sent
to the completion client, and the blob requests issued are identical, so
the answer field is identical in both runs. -/
theorem C5_flag_independence (env1 env2 : Env) (stub : Stubs) (q : String) :
    dropEngine (ask_langchain env1 stub q) = dropEngine (ask_langchain env2 stub q) ∧
    (ask_langchain env1 stub q).completionPrompts =
      (ask_langchain env2 stub q).completionPrompts ∧
    (ask_langchain env1 stub q).fetchRequests =
      (ask_langchain env2 stub q).fetchRequests := by
  unfold dropEngine ask_langchain get_context_from_blob
  cases hf : stub.fetchDoc ⟨"docs", "knowledge.txt"⟩ with
  | error e => simp [hf]
  | ok C =>
      cases hc : stub.complete (formatPrompt C q) with
      | error e => simp [hf, hc]
      | ok A => simp [hf, hc, Except.map, List.filter]

/-- C6, counterexample: the main.py handler reads three environment
variables while handling a request in managed-identity mode (the
deployment name, the endpoint, and the storage account URL), so it is not
the case that no configuration setting is read during request handling. -/
theorem C6_counterexample :
    (ask_langchain envEmpty stubSky "What color is the sky?").requestEnvReads =
      ["AZURE_OPENAI_DEPLOYMENT_NAME", "AZURE_OPENAI_ENDPOINT", "STORAGE_ACCOUNT_URL"] ∧
    ["AZURE_OPENAI_DEPLOYMENT_NAME", "AZURE_OPENAI_ENDPOINT", "STORAGE_ACCOUNT_URL"] ≠
      ([] : List String) := by
  exact ⟨rfl, by decide⟩

/-- C6, amended: in main.py only the USE_MANAGED_IDENTITY flag is read at
process start; the remaining settings are read from the environment during
every request (deployment, endpoint and the storage URL in
managed-identity mode; additionally the API key and the connection string
in static-key mode). In main_with_secretes.py all four settings are read
once at module load and none during request handling. -/
theorem C6_env_reads (env : Env) (stub : Stubs) (q : String) :
    (ask_langchain env stub q).requestEnvReads =
      (if useManagedIdentity env then
        ["AZURE_OPENAI_DEPLOYMENT_NAME", "AZURE_OPENAI_ENDPOINT", "STORAGE_ACCOUNT_URL"]
      else
        ["AZURE_OPENAI_DEPLOYMENT_NAME", "AZURE_OPENAI_ENDPOINT",
         "AZURE_OPENAI_API_KEY", "STORAGE_CONNECTION_STRING"]) ∧
    (Secretes.ask_langchain stub q).requestEnvReads = [] ∧
    Secretes.startupEnvReads =
      ["STORAGE_CONNECTION_STRING", "AZURE_OPENAI_API_KEY",
       "AZURE_OPENAI_ENDPOINT", "AZURE_OPENAI_DEPLOYMENT_NAME"] := by
  refine ⟨?_, ?_, rfl⟩
  · unfold ask_langchain get_context_from_blob
    cases h : useManagedIdentity env <;>
      cases hf : stub.fetchDoc ⟨"docs", "knowledge.txt"⟩ with
      | error e => simp [hf]
      | ok C => cases hc : stub.complete (formatPrompt C q) <;> simp [hf, hc]
  · unfold Secretes.ask_langchain Secretes.get_context_from_blob
    cases hf : stub.fetchDoc ⟨"docs", "knowledge.txt"⟩ with
    | error e => simp [hf]
    | ok C => cases hc : stub.complete (formatPrompt C q) <;> simp [hf, hc]

/-- C7: if the Completion Client fails with any error, the handler
propagates a completion error to the caller, and the Completion Client was
invoked exactly once for that request (no retry). -/
theorem C7_completion_failure (env : Env) (stub : Stubs) (q C : String) (e : CompError)
    (hfetch : ∀ r, stub.fetchDoc r = Except.ok C)
    (hcomp : ∀ p, stub.complete p = Except.error e) :
    (ask_langchain env stub q).result = Except.error (AppError.compError e) ∧
    (ask_langchain env stub q).completionPrompts.length = 1 := by
  unfold ask_langchain get_context_from_blob
  simp [hfetch, hcomp]

/-- C7 witness: the completion-failure theorem at an Unauthorized stub. -/
theorem C7_completion_failure_witness :
    (ask_langchain envEmpty stubCompUnauthorized "What color is the sky?").result =
      Except.error (AppError.compError CompError.unauthorized) ∧
    (ask_langchain envEmpty stubCompUnauthorized
        "What color is the sky?").completionPrompts.length = 1 :=
  C7_completion_failure envEmpty stubCompUnauthorized "What color is the sky?"
    "The sky is blue." CompError.unauthorized (fun _ => rfl) (fun _ => rfl)

/-- C8: every run of either handler issues exactly one blob request, and it
targets container "docs", blob "knowledge.txt"; neither name depends on
the environment or on the request, and each request performs its own fresh
fetch. -/
theorem C8_fixed_blob_target (env : Env) (stub : Stubs) (q : String) :
    (ask_langchain env stub q).fetchRequests =
      [⟨"docs", "knowledge.txt"⟩] ∧
    (Secretes.ask_langchain stub q).fetchRequests =
      [⟨"docs", "knowledge.txt"⟩] := by
  constructor
  · unfold ask_langchain get_context_from_blob
    cases hf : stub.fetchDoc ⟨"docs", "knowledge.txt"⟩ with
    | error e => simp [hf]
    | ok C => cases hc : stub.complete (formatPrompt C q) <;> simp [hf, hc]
  · unfold Secretes.ask_langchain Secretes.get_context_from_blob
    cases hf : stub.fetchDoc ⟨"docs", "knowledge.txt"⟩ with
    | error e => simp [hf]
    | ok C => cases hc : stub.complete (formatPrompt C q) <;> simp [hf, hc]

/-- C9, counterexample: called with the empty question, the handler does
not reject it: it fetches the document, invokes the Completion Client and
returns a normal success response. -/
theorem C9_counterexample :
    (ask_langchain envEmpty stubSky "").result =
      Except.ok [("answer", "Blue."), ("engine", "LangChain + Managed Identity")] ∧
    (ask_langchain envEmpty stubSky "").fetchRequests =
      [⟨"docs", "knowledge.txt"⟩] ∧
    (ask_langchain envEmpty stubSky "").completionPrompts ≠ [] := by
  refine ⟨rfl, rfl, by decide⟩

/-- C9, amended: the handler performs no validation on the question: an
empty question is processed like any other, fetching the document once,
invoking the Completion Client once with the empty question substituted
into the template, and returning a success response. -/
theorem C9_no_validation (env : Env) (stub : Stubs) (C A : String)
    (hfetch : ∀ r, stub.fetchDoc r = Except.ok C)
    (hcomp : ∀ p, stub.complete p = Except.ok A) :
    (ask_langchain env stub "").result =
      Except.ok [("answer", A),
        ("engine", "LangChain + "
          ++ (if useManagedIdentity env then "Managed Identity" else "API Key"))] ∧
    (ask_langchain env stub "").fetchRequests = [⟨"docs", "knowledge.txt"⟩] ∧
    (ask_langchain env stub "").completionPrompts = [formatPrompt C ""] := by
  unfold ask_langchain get_context_from_blob
  cases h : useManagedIdentity env <;> simp [hfetch, hcomp]

/-- C9 witness: the no-validation theorem at the sky stub with the empty
question. -/
theorem C9_no_validation_witness :
    (ask_langchain envEmpty stubSky "").result =
      Except.ok [("answer", "Blue."),
        ("engine", "LangChain + "
          ++ (if useManagedIdentity envEmpty then "Managed Identity" else "API Key"))] ∧
    (ask_langchain envEmpty stubSky "").fetchRequests = [⟨"docs", "knowledge.txt"⟩] ∧
    (ask_langchain envEmpty stubSky "").completionPrompts =
      [formatPrompt "The sky is blue." ""] :=
  C9_no_validation envEmpty stubSky "The sky is blue." "Blue."
    (fun _ => rfl) (fun _ => rfl)

/-- C10: when USE_MANAGED_IDENTITY is absent from the environment the
program runs in managed-identity mode; when it is present with value v,
managed-identity mode is selected exactly when lowercasing v yields
"true", so any casing of "true" selects managed-identity mode and every
other value, including the empty string, selects static-key mode. -/
theorem C10_flag_semantics (env : Env) (v : String) :
    (env "USE_MANAGED_IDENTITY" = none → useManagedIdentity env = true) ∧
    (env "USE_MANAGED_IDENTITY" = some v →
      (useManagedIdentity env = true ↔ pyLower v = "true")) := by
  constructor
  · intro h
    unfold useManagedIdentity getenvD
    rw [h]
    rfl
  · intro h
    unfold useManagedIdentity getenvD
    rw [h]
    simp [Option.getD]

/-- C10 witness: the flag semantics at concrete environments — absent
defaults to managed identity, "TRUE" and "TrUe" select managed identity,
the empty string and "false" select static-key mode. -/
theorem C10_flag_semantics_witness :
    useManagedIdentity (fun _ => none) = true ∧
    useManagedIdentity (fun _ => some "TRUE") = true ∧
    useManagedIdentity (fun _ => some "TrUe") = true ∧
    useManagedIdentity (fun _ => some "") = false ∧
    useManagedIdentity (fun _ => some "false") = false := by
  refine ⟨(C10_flag_semantics (fun _ => none) "x").1 rfl,
    ((C10_flag_semantics (fun _ => some "TRUE") "TRUE").2 rfl).mpr (by decide),
    ((C10_flag_semantics (fun _ => some "TrUe") "TrUe").2 rfl).mpr (by decide),
    ?_, ?_⟩
  · have h := (C10_flag_semantics (fun _ => some "") "").2 rfl
    cases hb : useManagedIdentity (fun _ => some "") with
    | false => rfl
    | true => exact absurd (h.mp hb) (by decide)
  · have h := (C10_flag_semantics (fun _ => some "false") "false").2 rfl
    cases hb : useManagedIdentity (fun _ => some "false") with
    | false => rfl
    | true => exact absurd (h.mp hb) (by decide)

end PasswordlessAiOps
